import Mathlib

/-!
Shallow embedding of the WebRTC broadcast client (src/client.js) and proofs
about its negotiation, control-channel, and teardown behaviour.

The source is a single-threaded, event-driven browser script with module
globals pc (peer connection), dc (data channel) and dcInterval (keepalive
timer handle).  Each asynchronous external call (createOffer,
setLocalDescription, fetch, response.json(), setRemoteDescription) is
modelled by an environment field carrying the result the external
collaborator would return; the promise chain of negotiate() becomes a
deterministic function of that environment.
-/

namespace Client

/-- A session-description blob: a payload string plus a type tag
("offer" or "answer"), as exchanged with the signaling endpoint. -/
structure SDesc where
  sdp : String
  typ : String
deriving DecidableEq

/-- ICE gathering states of the peer connection
(pc.iceGatheringState in client.js). -/
inductive GState where
  | new
  | gathering
  | complete
deriving DecidableEq

/-- Outcome of the gathering-completion wait built in negotiate()
(client.js lines 32-44): the promise either resolves immediately
(gathering already complete at the check), resolves on the k-th
icegatheringstatechange event, or never resolves. -/
inductive WaitOutcome where
  | immediate
  | resolvedAfter (k : Nat)
  | neverResolves
deriving DecidableEq

/-- Whether the wait promise resolves at all. -/
def WaitOutcome.resolves : WaitOutcome → Bool
  | .neverResolves => false
  | _ => true

/-- Index of the first icegatheringstatechange event at which the observed
state is complete (the checkState listener resolves there and removes
itself). -/
def firstComplete : List GState → Option Nat
  | [] => none
  | g :: gs => if g = GState.complete then some 0 else (firstComplete gs).map (· + 1)

/-- The gathering wait of client.js lines 32-44: if
pc.iceGatheringState is already complete, resolve without suspending;
otherwise register checkState on icegatheringstatechange and resolve at the
first event whose observed state is complete. `events` is the sequence of
gathering states observed at successive events. -/
def waitIce (initial : GState) (events : List GState) : WaitOutcome :=
  if initial = GState.complete then .immediate
  else
    match firstComplete events with
    | some k => .resolvedAfter k
    | none => .neverResolves

/-- The five asynchronous steps of negotiate(), in source order, plus the
body-parse step of the signaling round trip. -/
inductive NegStep where
  | createOffer
  | setLocal
  | gatherWait
  | fetchStep
  | parseStep
  | setRemote
deriving DecidableEq

/-- Response of the fetch to /offer: `ok` is the HTTP success flag
(response.ok - note that client.js never reads it), `jsonBody` the result
of response.json(), which rejects on an unparsable body. -/
structure FetchResponse where
  ok : Bool
  jsonBody : Except String SDesc

/-- Environment for one run of negotiate(): the results each external
call would produce. -/
structure NegEnv where
  createOfferR : Except String SDesc
  setLocalR : Except String Unit
  iceInitial : GState
  iceEvents : List GState
  fetchR : Except String FetchResponse
  setRemoteR : Except String Unit

/-- Observable result of one run of negotiate(): the steps that completed
(in execution order), the failing step if any, whether the run is suspended
forever in the gathering wait, which description was applied as the remote
description, and whether the catch handler ran (log + alert + stop()). -/
structure NegResult where
  trace : List NegStep
  error : Option (NegStep × String)
  suspended : Bool
  remoteApplied : Option SDesc
  logged : Bool
  alerted : Bool
  stopCalled : Bool
deriving DecidableEq

/-- Result of a rejection at step `st`: the catch handler of client.js
lines 66-70 logs the error, shows a blocking alert, and calls stop(). -/
def failRes (done : List NegStep) (st : NegStep) (e : String) : NegResult :=
  { trace := done
    error := some (st, e)
    suspended := false
    remoteApplied := none
    logged := true
    alerted := true
    stopCalled := true }

/-- negotiate() of client.js lines 24-71: the promise chain
createOffer -> setLocalDescription -> gathering wait -> fetch('/offer') ->
response.json() -> setRemoteDescription, with a single catch at the end.
A rejection skips the remaining then-steps and runs the catch handler.
The HTTP status of the fetch response is never inspected. -/
def negotiate (env : NegEnv) : NegResult :=
  match env.createOfferR with
  | .error e => failRes [] .createOffer e
  | .ok _offer =>
    match env.setLocalR with
    | .error e => failRes [.createOffer] .setLocal e
    | .ok _ =>
      match waitIce env.iceInitial env.iceEvents with
      | .neverResolves =>
        { trace := [.createOffer, .setLocal]
          error := none
          suspended := true
          remoteApplied := none
          logged := false
          alerted := false
          stopCalled := false }
      | _ =>
        match env.fetchR with
        | .error e => failRes [.createOffer, .setLocal, .gatherWait] .fetchStep e
        | .ok resp =>
          match resp.jsonBody with
          | .error e =>
            failRes [.createOffer, .setLocal, .gatherWait, .fetchStep] .parseStep e
          | .ok answer =>
            match env.setRemoteR with
            | .error e =>
              failRes [.createOffer, .setLocal, .gatherWait, .fetchStep, .parseStep]
                .setRemote e
            | .ok _ =>
              { trace := [.createOffer, .setLocal, .gatherWait, .fetchStep,
                          .parseStep, .setRemote]
                error := none
                suspended := false
                remoteApplied := some answer
                logged := false
                alerted := false
                stopCalled := false }

/-- The full step sequence of a successful negotiation. -/
def fullNegTrace : List NegStep :=
  [.createOffer, .setLocal, .gatherWait, .fetchStep, .parseStep, .setRemote]

/-- The steps that complete before step `st` runs. -/
def stepsUpto : NegStep → List NegStep
  | .createOffer => []
  | .setLocal => [.createOffer]
  | .gatherWait => [.createOffer, .setLocal]
  | .fetchStep => [.createOffer, .setLocal, .gatherWait]
  | .parseStep => [.createOffer, .setLocal, .gatherWait, .fetchStep]
  | .setRemote => [.createOffer, .setLocal, .gatherWait, .fetchStep, .parseStep]

/-- Data-channel ready states (dc.readyState).  The source string "open"
is a reserved word in Lean, so that state is spelled `opened`. -/
inductive RState where
  | connecting
  | opened
  | closing
  | closed
deriving DecidableEq

/-- Control-channel state visible to client.js: the ready state and
whether the keepalive interval handle dcInterval is set. -/
structure DCState where
  readyState : RState
  dcInterval : Bool
deriving DecidableEq

/-- Freshly created data channel (pc.createDataChannel, client.js
line 113): connecting, no keepalive handle. -/
def dcInit : DCState :=
  { readyState := .connecting, dcInterval := false }

/-- Events that drive the control-channel state in client.js:
dc.onopen (line 116) installs the keepalive interval; a keepalive tick
(line 119) sends a ping and, if dc.send throws, clears the interval
(lines 124-131); dc.onclose (line 135) clears the interval; stop()
(lines 182-193) clears the interval and then calls dc.close(). -/
inductive DCEvent where
  | openEvt
  | tick (sendOk : Bool)
  | closeEvt
  | stopClose
deriving DecidableEq

/-- One control-channel transition, translated from the handlers of
client.js.  A tick only does anything while the interval handle exists
(otherwise the timer has been cleared and never fires). -/
def dcStep (s : DCState) (e : DCEvent) : DCState :=
  match e with
  | .openEvt => { readyState := .opened, dcInterval := true }
  | .tick sendOk =>
    if s.dcInterval then
      if sendOk then s else { s with dcInterval := false }
    else s
  | .closeEvt => { readyState := .closed, dcInterval := false }
  | .stopClose => { readyState := .closing, dcInterval := false }

/-- The control-channel state after a sequence of events from creation. -/
def dcRun (evts : List DCEvent) : DCState :=
  evts.foldl dcStep dcInit

/-- parseInt(s, 10) of JavaScript, restricted to what the message handler
feeds it: skip leading spaces, accept an optional sign, then read leading
decimal digits; no digits means NaN, modelled as none. -/
def leadingDigits : List Char → List Char
  | [] => []
  | c :: cs => if c.isDigit then c :: leadingDigits cs else []

/-- Numeric value of a digit list (most significant first). -/
def digitsVal (l : List Char) : Nat :=
  l.foldl (fun a c => a * 10 + (c.toNat - 48)) 0

/-- parseInt(s, 10): none models NaN. -/
def parseInt10 (s : String) : Option Int :=
  let cs := s.data.dropWhile (fun c => c = ' ')
  match cs with
  | '-' :: rest =>
    if leadingDigits rest = [] then none else some (-(digitsVal (leadingDigits rest) : Int))
  | '+' :: rest =>
    if leadingDigits rest = [] then none else some (digitsVal (leadingDigits rest))
  | _ =>
    if leadingDigits cs = [] then none else some (digitsVal (leadingDigits cs))

/-- What dc.onmessage does with an inbound message: a message whose first
four characters are "pong" is consumed silently with a diagnostic
round-trip time; anything else is forwarded (logged as an application
event). -/
inductive MsgAction where
  | pongConsumed (rtt : Option Int)
  | forwarded (data : String)
deriving DecidableEq

/-- dc.onmessage of client.js lines 149-157:
evt.data.substring(0, 4) === 'pong' selects the liveness reply;
the round trip is Date.now() - parseInt(evt.data.substring(5), 10)
(none models the NaN of a failed parse); any other message is logged as
an application-level event. -/
def onmessage (now : Int) (data : String) : MsgAction :=
  if data.take 4 = "pong" then
    .pongConsumed ((parseInt10 (data.drop 5)).map (fun ts => now - ts))
  else .forwarded data

/-- The message handler leaves the channel state untouched: the body of
dc.onmessage only computes the round trip or logs; it assigns no state. -/
def dcHandleMessage (s : DCState) (now : Int) (data : String) : DCState × MsgAction :=
  (s, onmessage now data)

/-- Observable outcome of requestFrame(): the messages transmitted, whether
a user-visible warning was surfaced (log + alert), and whether an
exception escaped to the caller. -/
structure FrameOutcome where
  sent : List String
  warnedUser : Bool
  threw : Bool
deriving DecidableEq

/-- requestFrame() of client.js lines 164-172: if dc exists and
dc.readyState === 'open', send the fixed literal 'send_frame' once;
otherwise log and alert, transmitting nothing and throwing nothing. -/
def requestFrame (dc : Option RState) : FrameOutcome :=
  match dc with
  | some .opened => { sent := ["send_frame"], warnedUser := false, threw := false }
  | _ => { sent := [], warnedUser := true, threw := false }

/-- The HTTP success flag of the fetch response the environment would
return, when the fetch resolves at all. -/
def fetchOkFlag (env : NegEnv) : Option Bool :=
  match env.fetchR with
  | .ok r => some r.ok
  | .error _ => none

/-- An environment in which every external call succeeds. -/
def envOK : NegEnv :=
  { createOfferR := .ok ⟨"v=0 local", "offer"⟩
    setLocalR := .ok ()
    iceInitial := .complete
    iceEvents := []
    fetchR := .ok ⟨true, .ok ⟨"v=0 remote", "answer"⟩⟩
    setRemoteR := .ok () }

/-- An environment in which createOffer rejects. -/
def envBad : NegEnv :=
  { createOfferR := .error "offer failed"
    setLocalR := .ok ()
    iceInitial := .new
    iceEvents := []
    fetchR := .error "unused"
    setRemoteR := .ok () }

/-- An environment in which the rendezvous endpoint returns a NON-SUCCESS
response whose body nevertheless parses as an answer description. -/
def envNonSuccess : NegEnv :=
  { createOfferR := .ok ⟨"v=0 local", "offer"⟩
    setLocalR := .ok ()
    iceInitial := .complete
    iceEvents := []
    fetchR := .ok ⟨false, .ok ⟨"v=0 remote", "answer"⟩⟩
    setRemoteR := .ok () }

/-- An environment in which the response body is unparsable
(response.json() rejects). -/
def envParseFail : NegEnv :=
  { createOfferR := .ok ⟨"v=0 local", "offer"⟩
    setLocalR := .ok ()
    iceInitial := .complete
    iceEvents := []
    fetchR := .ok ⟨false, .error "bad json"⟩
    setRemoteR := .ok () }

/-- Event kinds the client registers listeners for on the peer
connection. -/
inductive EvtKind where
  | connectionstatechange
  | track
  | icegatheringstatechange
deriving DecidableEq

/-- The peer connection as the client sees it: a creation identity,
the set of event kinds with addEventListener-registered callbacks, and
the three on-property handler slots ontrack / onicegatheringstatechange /
onconnectionstatechange (a Bool says whether a handler function is
assigned there; client.js never assigns one, it only assigns null in
stop()). -/
structure PC where
  id : Nat
  listeners : List EvtKind
  ontrackProp : Bool
  onicegatheringProp : Bool
  onconnectionProp : Bool
deriving DecidableEq

/-- The module-global state of client.js: pc, dc, dcInterval, the video
element's srcObject, the number of deferred-close timeouts scheduled by
stop() and not yet fired, the ids of peer connections on which close()
was called, the id the next RTCPeerConnection construction gets, and the
three button enablement flags. -/
structure GSt where
  pc : Option PC
  dc : Bool
  dcInterval : Bool
  videoSrc : Bool
  pendingCloses : Nat
  closedIds : List Nat
  nextId : Nat
  startEnabled : Bool
  stopEnabled : Bool
  frameEnabled : Bool
deriving DecidableEq

/-- Page-load state (client.js lines 3-6 and 223-225). -/
def initSt : GSt :=
  { pc := none
    dc := false
    dcInterval := false
    videoSrc := false
    pendingCloses := 0
    closedIds := []
    nextId := 0
    startEnabled := true
    stopEnabled := false
    frameEnabled := false }

/-- start() of client.js lines 74-161 (state effects): disable Start,
enable Stop, assign a fresh RTCPeerConnection to the global pc,
register the connectionstatechange and track callbacks with
addEventListener, create the data channel.  The on-properties stay
unassigned; negotiate() runs afterwards and does not touch these
globals. -/
def start (s : GSt) : GSt :=
  { s with
      startEnabled := false
      stopEnabled := true
      pc := some
        { id := s.nextId
          listeners := [.connectionstatechange, .track]
          ontrackProp := false
          onicegatheringProp := false
          onconnectionProp := false }
      nextId := s.nextId + 1
      dc := true }

/-- stop() of client.js lines 175-221: reset the buttons, clear
dcInterval, close and null dc, and if pc exists assign null to
pc.ontrack, pc.onicegatheringstatechange and pc.onconnectionstatechange
(the addEventListener-registered callbacks are NOT removed) and schedule
a 500 ms deferred close; finally reset the video element.  pc itself is
nulled only inside the deferred callback. -/
def stop (s : GSt) : GSt :=
  let s1 : GSt :=
    { s with
        startEnabled := true
        stopEnabled := false
        frameEnabled := false
        dcInterval := false
        dc := false }
  match s1.pc with
  | none => { s1 with videoSrc := false }
  | some p =>
    { s1 with
        pc := some
          { p with
              ontrackProp := false
              onicegatheringProp := false
              onconnectionProp := false }
        pendingCloses := s1.pendingCloses + 1
        videoSrc := false }

/-- One deferred-close callback firing (client.js lines 204-210): it
reads the CURRENT global pc; if one is present - whichever session that
now is - it calls pc.close() and nulls the global. -/
def fireClose (s : GSt) : GSt :=
  match s.pc with
  | none => { s with pendingCloses := s.pendingCloses - 1 }
  | some p =>
    { s with
        pc := none
        closedIds := s.closedIds ++ [p.id]
        pendingCloses := s.pendingCloses - 1 }

/-- Fire n deferred-close callbacks in order. -/
def fireN : Nat → GSt → GSt
  | 0, s => s
  | n + 1, s => fireN n (fireClose s)

/-- Let every scheduled deferred close fire. -/
def settle (s : GSt) : GSt :=
  fireN s.pendingCloses s

/-- n invocations of stop() in a row. -/
def stopIter : Nat → GSt → GSt
  | 0, s => s
  | n + 1, s => stop (stopIter n s)

/-- Whether an event of kind k dispatched on the current peer connection
still invokes an application callback: addEventListener-registered
listeners fire, and so does an assigned on-property handler. -/
def handlerInvoked (s : GSt) (k : EvtKind) : Bool :=
  match s.pc with
  | none => false
  | some p =>
    p.listeners.contains k ||
      (match k with
       | .track => p.ontrackProp
       | .icegatheringstatechange => p.onicegatheringProp
       | .connectionstatechange => p.onconnectionProp)

end Client

namespace Client

/- Helper: if a complete state is observed at some icegatheringstatechange
event, the checkState listener resolves at the first such event. -/
theorem firstComplete_of_mem (events : List GState)
    (h : GState.complete ∈ events) : ∃ k, firstComplete events = some k := by
  induction events with
  | nil => simp at h
  | cons g gs ih =>
    by_cases hg : g = GState.complete
    · exact ⟨0, by simp [firstComplete, hg]⟩
    · rcases List.mem_cons.mp h with hh | hh
      · exact absurd hh.symm hg
      · rcases ih hh with ⟨k, hk⟩
        exact ⟨k + 1, by simp [firstComplete, hg, hk]⟩

/- Helper: once the global pc is null, every further deferred-close
callback only consumes its pending slot. -/
theorem fireN_pcNone (n : Nat) (s : GSt) (h : s.pc = none) :
    fireN n s = { s with pendingCloses := s.pendingCloses - n } := by
  induction n generalizing s with
  | zero => simp [fireN]
  | succ n ih =>
    have hfc : fireClose s = { s with pendingCloses := s.pendingCloses - 1 } := by
      simp [fireClose, h]
    have : fireN (n + 1) s = fireN n (fireClose s) := rfl
    rw [this, hfc, ih _ (by simp [h])]
    simp [Nat.sub_sub, Nat.add_comm]

/- Helper: a second stop() composed after a first one leaves the same
state once every scheduled deferred close has fired. -/
theorem settle_stop_stop (s : GSt) : settle (stop (stop s)) = settle (stop s) := by
  rcases s with ⟨pcOpt, dcF, di, vs, pend, cids, nid, se, ste, fe⟩
  cases pcOpt with
  | none => rfl
  | some p =>
    rcases p with ⟨pid, ls, t1, t2, t3⟩
    have key : ∀ (m : Nat) (cl : List Nat),
        fireN (m + 1)
          (⟨some ⟨pid, ls, false, false, false⟩, false, false, false, m + 1, cl,
            nid, true, false, false⟩ : GSt)
          = ⟨none, false, false, false, 0, cl ++ [pid], nid, true, false, false⟩ := by
      intro m cl
      have h1 : fireN (m + 1)
          (⟨some ⟨pid, ls, false, false, false⟩, false, false, false, m + 1, cl,
            nid, true, false, false⟩ : GSt)
          = fireN m (⟨none, false, false, false, m, cl ++ [pid], nid, true, false,
              false⟩ : GSt) := rfl
      rw [h1, fireN_pcNone m _ rfl]
      simp
    calc settle (stop (stop (⟨some ⟨pid, ls, t1, t2, t3⟩, dcF, di, vs, pend, cids,
            nid, se, ste, fe⟩ : GSt)))
        = fireN (pend + 1 + 1)
            (⟨some ⟨pid, ls, false, false, false⟩, false, false, false, pend + 1 + 1,
              cids, nid, true, false, false⟩ : GSt) := rfl
      _ = ⟨none, false, false, false, 0, cids ++ [pid], nid, true, false, false⟩ :=
            key (pend + 1) cids
      _ = fireN (pend + 1)
            (⟨some ⟨pid, ls, false, false, false⟩, false, false, false, pend + 1,
              cids, nid, true, false, false⟩ : GSt) := (key pend cids).symm
      _ = settle (stop (⟨some ⟨pid, ls, t1, t2, t3⟩, dcF, di, vs, pend, cids, nid,
            se, ste, fe⟩ : GSt)) := rfl

/- Helper: the terminal resource state after one stop() and its deferred
close: no keepalive timer, no channel reference, no session, no media
sink. -/
theorem settle_stop_fields (s : GSt) :
    (settle (stop s)).dcInterval = false ∧ (settle (stop s)).dc = false ∧
    (settle (stop s)).pc = none ∧ (settle (stop s)).videoSrc = false := by
  rcases s with ⟨pcOpt, dcF, di, vs, pend, cids, nid, se, ste, fe⟩
  cases pcOpt with
  | none =>
    have h1 : settle (stop (⟨none, dcF, di, vs, pend, cids, nid, se, ste, fe⟩ : GSt))
        = fireN pend (⟨none, false, false, false, pend, cids, nid, true, false,
            false⟩ : GSt) := rfl
    rw [h1, fireN_pcNone pend _ rfl]
    simp
  | some p =>
    rcases p with ⟨pid, ls, t1, t2, t3⟩
    have h1 : settle (stop (⟨some ⟨pid, ls, t1, t2, t3⟩, dcF, di, vs, pend, cids,
          nid, se, ste, fe⟩ : GSt))
        = fireN pend (⟨none, false, false, false, pend, cids ++ [pid], nid, true,
            false, false⟩ : GSt) := rfl
    rw [h1, fireN_pcNone pend _ rfl]
    simp

/-- Claim C1: in every run of negotiate, a successful run executes exactly
createOffer, setLocalDescription, the gathering wait, the signaling round
trip (fetch then body parse) and setRemoteDescription in that order; when
a step fails, exactly the steps before it have run and nothing after it
runs; and the remote description step is reached only in a run whose full
prefix completed, with the gathering wait resolved (gathering complete). -/
theorem negotiate_step_order (env : NegEnv) :
    ((negotiate env).error = none → (negotiate env).suspended = false →
      (negotiate env).trace = fullNegTrace) ∧
    (∀ st e, (negotiate env).error = some (st, e) → (negotiate env).trace = stepsUpto st) ∧
    (NegStep.setRemote ∈ (negotiate env).trace →
      (negotiate env).trace = fullNegTrace ∧
        waitIce env.iceInitial env.iceEvents ≠ WaitOutcome.neverResolves) := by
  obtain ⟨co, sl, ii, ie, f, sr⟩ := env
  rcases hw : waitIce ii ie with _ | k | _ <;>
  rcases co with e | offer <;>
  rcases sl with e2 | u <;>
  (try rcases f with ef | ⟨ok, jb⟩) <;>
  (try rcases jb with ej | ans) <;>
  (try rcases sr with er | u2) <;>
  simp_all [negotiate, failRes, stepsUpto, fullNegTrace]

/-- Witness for C1: in the all-success environment the full ordered trace
is executed. -/
theorem negotiate_step_order_witness :
    (negotiate envOK).trace = fullNegTrace :=
  (negotiate_step_order envOK).1 rfl rfl

/-- Claim C2: a failure at any step of negotiate aborts the run after the
steps preceding the failing one (no later step runs, each step ran at
most once - no retry), and the catch handler logs the error, surfaces it
as a blocking alert, and calls stop() for full teardown. -/
theorem negotiate_failure_aborts (env : NegEnv) (st : NegStep) (e : String)
    (h : (negotiate env).error = some (st, e)) :
    (negotiate env).logged = true ∧ (negotiate env).alerted = true ∧
    (negotiate env).stopCalled = true ∧ (negotiate env).trace = stepsUpto st ∧
    ((negotiate env).trace).Nodup := by
  obtain ⟨co, sl, ii, ie, f, sr⟩ := env
  rcases hw : waitIce ii ie with _ | k | _ <;>
  rcases co with e1 | offer <;>
  rcases sl with e2 | u <;>
  (try rcases f with ef | ⟨ok, jb⟩) <;>
  (try rcases jb with ej | ans) <;>
  (try rcases sr with er | u2) <;>
  simp_all [negotiate, failRes] <;>
  (try obtain ⟨rfl, rfl⟩ := h) <;>
  try decide

/-- Witness for C2: when createOffer rejects, the error is logged,
alerted, teardown runs, and no later step ran. -/
theorem negotiate_failure_aborts_witness :
    (negotiate envBad).logged = true ∧ (negotiate envBad).alerted = true ∧
    (negotiate envBad).stopCalled = true ∧
    (negotiate envBad).trace = stepsUpto NegStep.createOffer :=
  ⟨(negotiate_failure_aborts envBad .createOffer "offer failed" rfl).1,
   (negotiate_failure_aborts envBad .createOffer "offer failed" rfl).2.1,
   (negotiate_failure_aborts envBad .createOffer "offer failed" rfl).2.2.1,
   (negotiate_failure_aborts envBad .createOffer "offer failed" rfl).2.2.2.1⟩

/-- Claim C3 (code bug evidence): stop() assigns null to pc.ontrack,
pc.onicegatheringstatechange and pc.onconnectionstatechange, but the
connectionstatechange and track callbacks were registered with
addEventListener, so after the synchronous steps of teardown they are
still attached and an event dispatched on the session still invokes
them. -/
theorem listeners_survive_stop :
    handlerInvoked (stop (start initSt)) .connectionstatechange = true ∧
    handlerInvoked (stop (start initSt)) .track = true ∧
    (stop (start initSt)).pc.isSome = true := by decide

/-- Counterexample for C4: a non-success response whose body parses as an
answer does NOT fail the negotiation - the code never reads response.ok -
and the received description is applied as the remote description, so the
claim that a non-success response fails with a SignalingProtocolError is
false on the code. -/
theorem nonsuccess_response_applied :
    fetchOkFlag envNonSuccess = some false ∧
    (negotiate envNonSuccess).error = none ∧
    (negotiate envNonSuccess).remoteApplied = some ⟨"v=0 remote", "answer"⟩ ∧
    (negotiate envNonSuccess).stopCalled = false := by decide

/-- Claim C4 as amended: in any run that reaches the signaling round trip,
an unparsable response body fails the negotiation at the body-parse step
with nothing applied, while a body that parses as a description is
applied as the remote description whenever the remote apply succeeds,
regardless of the HTTP success status of the response. -/
theorem signaling_parse_behavior (env : NegEnv) (resp : FetchResponse)
    (hreach : NegStep.gatherWait ∈ (negotiate env).trace)
    (hf : env.fetchR = .ok resp) :
    (∀ e, resp.jsonBody = .error e →
      (negotiate env).error = some (.parseStep, e) ∧
        (negotiate env).remoteApplied = none) ∧
    (∀ a, resp.jsonBody = .ok a → env.setRemoteR = .ok () →
      (negotiate env).remoteApplied = some a ∧ (negotiate env).error = none) := by
  obtain ⟨co, sl, ii, ie, f, sr⟩ := env
  subst hf
  rcases hw : waitIce ii ie with _ | k | _ <;>
  rcases co with e1 | offer <;>
  rcases sl with e2 | u <;>
  rcases resp with ⟨ok, jb⟩ <;>
  rcases jb with ej | ans <;>
  (try rcases sr with er | u2) <;>
  simp_all [negotiate, failRes]

/-- Witness for C4 (amended): with an unparsable body the run fails at the
body-parse step and applies nothing. -/
theorem signaling_parse_behavior_witness :
    (negotiate envParseFail).error = some (NegStep.parseStep, "bad json") ∧
    (negotiate envParseFail).remoteApplied = none :=
  (signaling_parse_behavior envParseFail ⟨false, .error "bad json"⟩ (by decide) rfl).1
    "bad json" rfl

/-- Counterexample for C5: after the channel opens and a keepalive tick
whose send throws, the interval handle is gone while readyState is still
open, so the claimed equivalence between handle existence and the open
state is false on the code. -/
theorem keepalive_absent_while_open :
    (dcRun [.openEvt, .tick false]).readyState = RState.opened ∧
    (dcRun [.openEvt, .tick false]).dcInterval = false := by decide

/-- Claim C5 as amended: in every reachable control-channel state the
keepalive handle exists only if readyState is open (so it is cancelled at
or before every transition out of open), but it may also already be
absent while the channel is open, after a send failure during a tick
cancelled it permanently. -/
theorem keepalive_only_while_open (evts : List DCEvent) :
    (dcRun evts).dcInterval = true → (dcRun evts).readyState = RState.opened := by
  suffices h : ∀ s : DCState,
      (s.dcInterval = true → s.readyState = RState.opened) →
      ((evts.foldl dcStep s).dcInterval = true →
        (evts.foldl dcStep s).readyState = RState.opened) by
    exact h dcInit (by intro hc; cases hc)
  induction evts with
  | nil => intro s hs; simpa using hs
  | cons e es ih =>
    intro s hs
    refine ih (dcStep s e) ?_
    rcases e with _ | ok | _ | _
    · intro _; rfl
    · by_cases hd : s.dcInterval
      · cases ok with
        | true =>
          have he : dcStep s (.tick true) = s := by simp [dcStep, hd]
          rw [he]; exact hs
        | false =>
          have he : dcStep s (.tick false) = { s with dcInterval := false } := by
            simp [dcStep, hd]
          rw [he]; intro hc; simp at hc
      · have he : dcStep s (.tick ok) = s := by simp [dcStep, hd]
        rw [he]; exact hs
    · intro hc; simp [dcStep] at hc
    · intro hc; simp [dcStep] at hc

/-- Witness for C5 (amended): right after the open event the handle exists
and the theorem yields that the channel is open. -/
theorem keepalive_only_while_open_witness :
    (dcRun [DCEvent.openEvt]).dcInterval = true ∧
    (dcRun [DCEvent.openEvt]).readyState = RState.opened :=
  ⟨rfl, keepalive_only_while_open [DCEvent.openEvt] rfl⟩

/-- Counterexample for C6: a second stop() invoked while the deferred
transport close of the first is still pending is NOT a no-op - the pc
guard in stop() passes (pc is still set) and a second deferred close is
scheduled, observable as two pending timeouts instead of one. -/
theorem second_stop_not_noop :
    (stop (stop (start initSt))).pendingCloses = 2 ∧
    (stop (start initSt)).pendingCloses = 1 := by decide

/-- Claim C6 as amended: teardown is idempotent in its effect - invoking
stop() any number of times (one or more) from any state, then letting
every scheduled deferred close fire, yields exactly the state of a single
stop() followed by its deferred close; the extra deferred callbacks are
no-ops guarded by the presence of the session reference.  The terminal
resource state has no keepalive timer, no channel reference, no session
(transport closed and released), and no media sink. -/
theorem stop_idempotent_settled (s : GSt) (n : Nat) :
    settle (stopIter (n + 1) s) = settle (stop s) ∧
    (settle (stop s)).dcInterval = false ∧ (settle (stop s)).dc = false ∧
    (settle (stop s)).pc = none ∧ (settle (stop s)).videoSrc = false := by
  refine ⟨?_, settle_stop_fields s⟩
  induction n with
  | zero => rfl
  | succ n ih =>
    calc settle (stopIter (n + 1 + 1) s)
        = settle (stop (stop (stopIter n s))) := rfl
      _ = settle (stop (stopIter n s)) := settle_stop_stop _
      _ = settle (stop s) := ih

/-- Claim C7: the gathering wait resolves without suspending when the
gathering state is already complete at the time of the check, and when it
is not, a later gathering-state-change event reporting complete resolves
it - it never suspends forever once completion is observable. -/
theorem gather_wait_no_deadlock (initial : GState) (events : List GState) :
    (initial = GState.complete → waitIce initial events = .immediate) ∧
    (GState.complete ∈ events → (waitIce initial events).resolves = true) := by
  constructor
  · intro h; simp [waitIce, h]
  · intro h
    by_cases hi : initial = GState.complete
    · simp [waitIce, hi, WaitOutcome.resolves]
    · rcases firstComplete_of_mem events h with ⟨k, hk⟩
      simp [waitIce, hi, hk, WaitOutcome.resolves]

/-- Witness for C7: already-complete gathering resolves immediately, and a
pending wait resolves once a complete event arrives. -/
theorem gather_wait_no_deadlock_witness :
    waitIce GState.complete [] = WaitOutcome.immediate ∧
    (waitIce GState.new [GState.gathering, GState.complete]).resolves = true :=
  ⟨(gather_wait_no_deadlock .complete []).1 rfl,
   (gather_wait_no_deadlock .new [.gathering, .complete]).2 (by decide)⟩

/-- Claim C8: an inbound control-channel message is classified by the
fixed four-character prefix pong: such a message is consumed silently,
with the round trip computed as now minus the timestamp parsed after the
prefix (none modelling NaN), the channel state untouched and no
validation of the timestamp against sent pings; every other message is
forwarded as an application-level event, also without touching state. -/
theorem onmessage_classification (s : DCState) (now : Int) (data : String) :
    (data.take 4 = "pong" →
      dcHandleMessage s now data =
        (s, .pongConsumed ((parseInt10 (data.drop 5)).map (fun ts => now - ts)))) ∧
    (data.take 4 ≠ "pong" → dcHandleMessage s now data = (s, .forwarded data)) := by
  constructor <;> intro h <;> simp [dcHandleMessage, onmessage, h]

/-- Witness for C8: a pong with an arbitrary (never-sent) timestamp is
consumed without error and without touching the state, and a non-pong
message is forwarded unchanged. -/
theorem onmessage_classification_witness :
    dcHandleMessage dcInit 150 "pong 100" = (dcInit, .pongConsumed (some 50)) ∧
    dcHandleMessage dcInit 150 "frame_ready" = (dcInit, .forwarded "frame_ready") :=
  ⟨((onmessage_classification dcInit 150 "pong 100").1 (by decide)).trans (by decide),
   (onmessage_classification dcInit 150 "frame_ready").2 (by decide)⟩

/-- Claim C9: requestFrame with no channel or a channel not in the open
state transmits nothing, throws nothing and only surfaces a user-visible
warning; with an open channel it sends exactly the literal send_frame
once. -/
theorem requestFrame_spec (dc : Option RState) :
    (dc ≠ some RState.opened →
      requestFrame dc = { sent := [], warnedUser := true, threw := false }) ∧
    (dc = some RState.opened →
      requestFrame dc = { sent := ["send_frame"], warnedUser := false, threw := false }) := by
  constructor
  · intro h
    rcases dc with _ | r
    · rfl
    · rcases r <;> first | rfl | exact absurd rfl h
  · intro h; subst h; rfl

/-- Witness for C9: an absent channel warns without sending; an open
channel sends exactly the fixed literal once. -/
theorem requestFrame_spec_witness :
    requestFrame none = { sent := [], warnedUser := true, threw := false } ∧
    requestFrame (some RState.opened) =
      { sent := ["send_frame"], warnedUser := false, threw := false } :=
  ⟨(requestFrame_spec none).1 (by decide), (requestFrame_spec (some RState.opened)).2 rfl⟩

/-- Claim C10: after stop() and then a start() that creates a second
session while the deferred close of the first is still pending, the
deferred callback fires against the current global session reference: it
closes and releases the NEW session (id 1), never having closed the old
one (id 0), because its guard only checks presence of the global pc, not
the identity of the session it was scheduled for. -/
theorem deferred_close_kills_new_session :
    ((start initSt).pc.map PC.id) = some 0 ∧
    ((start (stop (start initSt))).pc.map PC.id) = some 1 ∧
    (start (stop (start initSt))).pendingCloses = 1 ∧
    (fireClose (start (stop (start initSt)))).closedIds = [1] ∧
    (fireClose (start (stop (start initSt)))).pc = none := by decide

end Client
